import Mathlib

/-!
Verification of the netlink/nl80211 protocol layer of the wifi-scan library
(`wifi_scan.c`), as a shallow embedding in Lean 4.

Bytes are modelled as `Nat` values in `[0, 256)`.  Multi-byte integers read
from attribute payloads use the host's little-endian layout, matching the
platforms the library targets.  Reads of a `char` value that the C code
compares or widens as a signed quantity go through `signedChar`.
The kernel transport (sockets, recv results, callback dispatch outcomes) is an
external collaborator and enters the model as explicit outcome parameters.
-/

namespace WifiScan

/-- Signed interpretation of a byte, as the C `char`/`int8_t` conversions on
the library's reference platforms (signed 8-bit). -/
def signedChar (b : Nat) : Int :=
  if b < 128 then (b : Int) else (b : Int) - 256

/-- Little-endian 16-bit read of the first two payload bytes
(`mnl_attr_get_u16`). -/
def readU16LE (l : List Nat) : Nat :=
  l.getD 0 0 + 256 * l.getD 1 0

/-- Little-endian 32-bit read of the first four payload bytes
(`mnl_attr_get_u32`). -/
def readU32LE (l : List Nat) : Nat :=
  l.getD 0 0 + 256 * l.getD 1 0 + 65536 * l.getD 2 0 + 16777216 * l.getD 3 0

/-- Netlink 4-byte alignment of attribute records (`MNL_ALIGN`). -/
def align4 (n : Nat) : Nat := (n + 3) / 4 * 4

/-- `NLA_TYPE_MASK`: the attribute type field with the two flag bits masked
off, as done by `mnl_attr_get_type`. -/
def NLA_TYPE_MASK : Nat := 16383

/-- A decoded netlink attribute: its (masked) type and its payload bytes. -/
structure nlattr where
  typ : Nat
  payload : List Nat
deriving DecidableEq

/-- Decoding of a TLV attribute stream, as iterated by `mnl_attr_for_each` /
`mnl_attr_parse`: each record is a 2-byte length, a 2-byte type and the
payload, padded to 4-byte alignment; iteration stops as soon as the next
header does not fit or declares an impossible length (`mnl_attr_ok`).
The fuel argument bounds the recursion; each step consumes at least 4 bytes,
so fuel equal to the byte count is always enough. -/
def mnl_attr_stream : Nat → List Nat → List nlattr
  | 0, _ => []
  | fuel + 1, bytes =>
    if bytes.length < 4 then []
    else
      let nla_len := readU16LE bytes
      let t := (bytes.getD 2 0 + 256 * bytes.getD 3 0) % (NLA_TYPE_MASK + 1)
      if nla_len < 4 ∨ bytes.length < nla_len then []
      else ⟨t, (bytes.drop 4).take (nla_len - 4)⟩ :: mnl_attr_stream fuel (bytes.drop (align4 nla_len))

/-- Attribute stream of a payload, with sufficient fuel. -/
def mnl_attr_stream_of (payload : List Nat) : List nlattr :=
  mnl_attr_stream payload.length payload

/-- `enum mnl_attr_data_type` of libmnl. -/
inductive mnl_attr_data_type where
  | UNSPEC | U8 | U16 | U32 | U64 | STRING | FLAG | MSECS
  | NESTED | NESTED_COMPAT | NUL_STRING | BINARY
deriving DecidableEq

/-- Expected payload sizes per data type (libmnl's `mnl_attr_data_type_len`). -/
def mnl_attr_data_type_len : mnl_attr_data_type → Nat
  | .U8 => 1
  | .U16 => 2
  | .U32 => 4
  | .U64 => 8
  | .MSECS => 8
  | _ => 0

/-- libmnl's `__mnl_attr_validate`: the payload must be at least the expected
length, plus per-type structural checks.  `true` means the attribute passed. -/
def mnl_attr_validate_check (a : nlattr) (t : mnl_attr_data_type) (exp_len : Nat) : Bool :=
  let attr_len := a.payload.length
  if attr_len < exp_len then false
  else
    match t with
    | .FLAG => attr_len == 0
    | .NUL_STRING => decide (attr_len ≠ 0) && (a.payload.getLast? == some 0)
    | .STRING => decide (attr_len ≠ 0)
    | .NESTED => (attr_len == 0) || decide (4 ≤ attr_len)
    | _ => true

/-- mnl callback result codes. -/
def MNL_CB_ERROR : Int := -1

/-- mnl callback result codes. -/
def MNL_CB_STOP : Int := 0

/-- mnl callback result codes. -/
def MNL_CB_OK : Int := 1

/-- One entry of a validation table (`struct attribute_validation`). -/
structure attribute_validation where
  attr : Nat
  typ : mnl_attr_data_type
  len : Nat
deriving DecidableEq

/-- The check `validate` runs for one matching table entry: `mnl_attr_validate`
when no length is given, `mnl_attr_validate2` with the fixed length otherwise. -/
def checkRule (v : attribute_validation) (a : nlattr) : Bool :=
  if v.len = 0 then mnl_attr_validate_check a v.typ (mnl_attr_data_type_len v.typ)
  else mnl_attr_validate_check a v.typ v.len

/-- The library's `validate` callback: attributes whose id exceeds the declared
maximum are skipped (`mnl_attr_type_valid` fails, `MNL_CB_OK`, nothing
recorded); attributes matching a table entry whose check fails abort with
`MNL_CB_ERROR` (nothing recorded); every other attribute is recorded into the
output table slot for its id. -/
def validate (validation : List attribute_validation) (attribute_length : Nat)
    (a : nlattr) (tb : Nat → Option nlattr) : Int × (Nat → Option nlattr) :=
  if attribute_length < a.typ then (MNL_CB_OK, tb)
  else if validation.any (fun v => v.attr == a.typ && !(checkRule v a)) then (MNL_CB_ERROR, tb)
  else (MNL_CB_OK, fun t => if t = a.typ then some a else tb t)

/-- The attribute iteration of `mnl_attr_parse` / `mnl_attr_parse_nested` with
the `validate` callback: run `validate` over each decoded attribute in order,
stopping at the first result `≤ MNL_CB_STOP`.  Returns the final status and the
populated output table (the table mutations made before an abort persist, as
they do through the C pointer). -/
def mnl_attr_parse_loop (validation : List attribute_validation) (attribute_length : Nat) :
    List nlattr → (Nat → Option nlattr) → Int × (Nat → Option nlattr)
  | [], tb => (MNL_CB_OK, tb)
  | a :: rest, tb =>
    let r := validate validation attribute_length a tb
    if r.1 ≤ MNL_CB_STOP then r
    else mnl_attr_parse_loop validation attribute_length rest r.2

/-- `mnl_attr_parse` over a raw payload, starting from an empty table. -/
def mnl_attr_parse_payload (validation : List attribute_validation) (attribute_length : Nat)
    (payload : List Nat) : Int × (Nat → Option nlattr) :=
  mnl_attr_parse_loop validation attribute_length (mnl_attr_stream_of payload) (fun _ => none)

/-! ## nl80211 constants and the validation tables of the library -/

/-- `NL80211_BSS_BSSID` from `linux/nl80211.h`. -/
def NL80211_BSS_BSSID : Nat := 1

/-- `NL80211_BSS_FREQUENCY` from `linux/nl80211.h`. -/
def NL80211_BSS_FREQUENCY : Nat := 2

/-- `NL80211_BSS_INFORMATION_ELEMENTS` from `linux/nl80211.h`. -/
def NL80211_BSS_INFORMATION_ELEMENTS : Nat := 6

/-- `NL80211_BSS_SIGNAL_MBM` from `linux/nl80211.h`. -/
def NL80211_BSS_SIGNAL_MBM : Nat := 7

/-- `NL80211_BSS_STATUS` from `linux/nl80211.h`. -/
def NL80211_BSS_STATUS : Nat := 9

/-- `NL80211_BSS_SEEN_MS_AGO` from `linux/nl80211.h`. -/
def NL80211_BSS_SEEN_MS_AGO : Nat := 10

/-- `NL80211_BSS_MAX` from `linux/nl80211.h`.  Its exact value depends on the
kernel header revision; only the fact that it is at least the attribute ids the
library consumes (which are stable) matters to the behaviour modelled here. -/
def NL80211_BSS_MAX : Nat := 18

/-- `NL80211_BSS_STATUS_ASSOCIATED` from `linux/nl80211.h`. -/
def NL80211_BSS_STATUS_ASSOCIATED : Nat := 1

/-- `NL80211_BSS_STATUS_IBSS_JOINED` from `linux/nl80211.h`. -/
def NL80211_BSS_STATUS_IBSS_JOINED : Nat := 2

/-- Modelled from the spec: `BSS_NONE`, the `None` value of the association
status enumeration `{None, Authenticated, Associated, IbssJoined}` declared in
the header `wifi_scan.h`, which is not part of the provided sources.  Listed
first in the spec's enumeration, it is 0 and in particular distinct from the
nl80211 wire codes for associated (1) and IBSS-joined (2). -/
def BSS_NONE : Nat := 0

/-- Modelled from the spec: `BSSID_LENGTH` (6-byte BSSID) from the missing
header `wifi_scan.h`. -/
def BSSID_LENGTH : Nat := 6

/-- Modelled from the spec: `SSID_MAX_LENGTH_WITH_NULL` (an SSID is at most 32
bytes plus the terminator) from the missing header `wifi_scan.h`. -/
def SSID_MAX_LENGTH_WITH_NULL : Nat := 33

/-- `NL80211_VALIDATION` table of the source. -/
def NL80211_VALIDATION : List attribute_validation :=
  [⟨1, .U16, 0⟩,   -- CTRL_ATTR_FAMILY_ID
   ⟨7, .NESTED, 0⟩] -- CTRL_ATTR_MCAST_GROUPS

/-- `NL80211_MCAST_GROUPS_VALIDATION` table of the source. -/
def NL80211_MCAST_GROUPS_VALIDATION : List attribute_validation :=
  [⟨2, .U32, 0⟩,    -- CTRL_ATTR_MCAST_GRP_ID
   ⟨1, .STRING, 0⟩] -- CTRL_ATTR_MCAST_GRP_NAME

/-- `NL80211_BSS_VALIDATION` table of the source. -/
def NL80211_BSS_VALIDATION : List attribute_validation :=
  [⟨NL80211_BSS_BSSID, .BINARY, 6⟩,
   ⟨NL80211_BSS_FREQUENCY, .U32, 0⟩,
   ⟨NL80211_BSS_INFORMATION_ELEMENTS, .BINARY, 0⟩,
   ⟨NL80211_BSS_STATUS, .U32, 0⟩,
   ⟨NL80211_BSS_SIGNAL_MBM, .U32, 0⟩,
   ⟨NL80211_BSS_SEEN_MS_AGO, .U32, 0⟩]

/-- `NL80211_STA_INFO_VALIDATION` table of the source. -/
def NL80211_STA_INFO_VALIDATION : List attribute_validation :=
  [⟨7, .U8, 0⟩,   -- NL80211_STA_INFO_SIGNAL
   ⟨9, .U32, 0⟩,  -- NL80211_STA_INFO_RX_PACKETS
   ⟨10, .U32, 0⟩] -- NL80211_STA_INFO_TX_PACKETS

/-- `NL80211_STA_INFO_MAX` from `linux/nl80211.h` (header-revision dependent;
at least the consumed ids 7, 9, 10). -/
def NL80211_STA_INFO_MAX : Nat := 31

/-! ## BSS records and the BSS parsers -/

/-- Modelled from the spec: `struct bss_info` of the missing header
`wifi_scan.h` — 6-byte BSSID, frequency, the 33-byte zero-terminated SSID
array, signal in milli-dBm, milliseconds since seen, association status.
The field set and the way each field is written are those of
`parse_NL80211_ATTR_BSS` in the provided source. -/
structure bss_info where
  bssid : List Nat
  frequency : Nat
  ssid : List Nat
  signal_mbm : Nat
  seen_ms_ago : Nat
  status : Nat
deriving DecidableEq

/-- An all-zero `bss_info` (caller storage initialised to zero, the typical
case named by the spec). -/
def bss_zero : bss_info :=
  ⟨List.replicate 6 0, 0, List.replicate 33 0, 0, 0, 0⟩

/-- `parse_NL80211_BSS_BSSID`: a payload of exactly `BSSID_LENGTH` bytes is
copied verbatim; any other length zero-fills the output (and logs). -/
def parse_NL80211_BSS_BSSID (payload : List Nat) : List Nat :=
  if payload.length = BSSID_LENGTH then payload else List.replicate BSSID_LENGTH 0

/-- C `strncpy(dst, src, n)` restricted to byte lists: copy at most `n` bytes,
stop at a zero byte in `src` and pad the rest of the `n` bytes with zeros;
bytes of `dst` beyond `n` keep their old value.  (The library only calls it
with `n` not exceeding the bytes available in `src`.) -/
def strncpyL : Nat → List Nat → List Nat → List Nat
  | 0, dst, _ => dst
  | _ + 1, [], _ => []
  | n + 1, _ :: dst, [] => 0 :: strncpyL n dst []
  | n + 1, _ :: dst, c :: src =>
    if c = 0 then 0 :: strncpyL n dst [] else c :: strncpyL n dst src

/-- `parse_NL80211_BSS_INFORMATION_ELEMENTS`: the information-element payload
must start with element id 0, followed by a declared length that is below
`SSID_MAX_LENGTH_WITH_NULL` and does not exceed the remaining bytes; then the
SSID is copied into the 33-byte output array and zero-terminated.  On a check
failure the output becomes the empty string (a zero is written at index 0) and
the condition is logged.  The result is `none` when the C code's behaviour is
not determined by the payload: a 1-byte payload starting with 0 makes it read
`payload[1]` beyond the payload's end, and a declared-length byte in
`[128, 256)` is a negative `char`, slipping past both checks into
`strncpy` with a negative (hugely wrapped) size. -/
def parse_NL80211_BSS_INFORMATION_ELEMENTS (payload : List Nat) (ssid_out : List Nat) :
    Option (List Nat) :=
  let len := payload.length
  if len = 0 then some (ssid_out.set 0 0)
  else if payload.getD 0 0 ≠ 0 then some (ssid_out.set 0 0)
  else if len < 2 then none
  else
    let d := signedChar (payload.getD 1 0)
    if (SSID_MAX_LENGTH_WITH_NULL : Int) ≤ d ∨ (len : Int) - 2 < d then some (ssid_out.set 0 0)
    else if d < 0 then none
    else some ((strncpyL d.toNat ssid_out (payload.drop 2)).set d.toNat 0)

/-- The validated attribute table of one BSS entry: the nested payload of an
`NL80211_ATTR_BSS` attribute run through `mnl_attr_parse_nested` with
`NL80211_BSS_VALIDATION` (the parse status is ignored by the source). -/
def bss_entry_tb (nested : List Nat) : Nat → Option nlattr :=
  (mnl_attr_parse_payload NL80211_BSS_VALIDATION NL80211_BSS_MAX nested).2

/-- The status of one BSS entry: the `NL80211_BSS_STATUS` attribute when
present, `BSS_NONE` otherwise. -/
def bss_entry_status (nested : List Nat) : Nat :=
  match bss_entry_tb nested NL80211_BSS_STATUS with
  | some a => readU32LE a.payload
  | none => BSS_NONE

/-- The "entry of primary interest" test of `parse_NL80211_ATTR_BSS`:
associated or IBSS-joined.  (The authenticated case is commented out in the
source.) -/
def bss_status_assoc (s : Nat) : Prop :=
  s = NL80211_BSS_STATUS_ASSOCIATED ∨ s = NL80211_BSS_STATUS_IBSS_JOINED

instance (s : Nat) : Decidable (bss_status_assoc s) :=
  inferInstanceAs (Decidable (s = NL80211_BSS_STATUS_ASSOCIATED ∨ s = NL80211_BSS_STATUS_IBSS_JOINED))

/-- Population of one `bss_info` record from a validated attribute table, in
the order of the source: BSSID, frequency, information elements (SSID),
signal, seen-ms-ago, and finally the unconditional status store.  Fields whose
attribute is absent keep the previous contents `old` of the record.  `none`
when the SSID sub-parse hits behaviour not determined by the payload. -/
def fill_bss (tb : Nat → Option nlattr) (status : Nat) (old : bss_info) : Option bss_info :=
  let b1 := match tb NL80211_BSS_BSSID with
    | some a => { old with bssid := parse_NL80211_BSS_BSSID a.payload }
    | none => old
  let b2 := match tb NL80211_BSS_FREQUENCY with
    | some a => { b1 with frequency := readU32LE a.payload }
    | none => b1
  match (match tb NL80211_BSS_INFORMATION_ELEMENTS with
         | some a => parse_NL80211_BSS_INFORMATION_ELEMENTS a.payload b2.ssid
         | none => some b2.ssid) with
  | none => none
  | some s =>
    let b3 := { b2 with ssid := s }
    let b4 := match tb NL80211_BSS_SIGNAL_MBM with
      | some a => { b3 with signal_mbm := readU32LE a.payload }
      | none => b3
    let b5 := match tb NL80211_BSS_SEEN_MS_AGO with
      | some a => { b4 with seen_ms_ago := readU32LE a.payload }
      | none => b4
    some { b5 with status := status }

/-- `struct context_NL80211_CMD_NEW_SCAN_RESULTS`: the caller-supplied output
storage (modelled as unbounded memory indexed by slot, so that out-of-bounds
writes would be observable), its declared capacity, and the running count of
BSS entries seen. -/
structure scan_state where
  bss_infos : Nat → bss_info
  bss_infos_length : Nat
  scanned : Nat

/-- `parse_NL80211_ATTR_BSS`, the bounded-buffer placement routine, on the
nested payload of one BSS entry.  An associated/IBSS-joined entry first
preserves slot 0 by copying it to the slot this entry would have used (only
when that slot is in capacity and `scanned > 0`), then targets slot 0; other
entries target slot `scanned`.  An entry whose target is out of capacity and
is not slot 0 only increments `scanned`.  `none` when the record fill hits
the SSID sub-parser's undetermined behaviour. -/
def parse_NL80211_ATTR_BSS (nested : List Nat) (sr : scan_state) : Option scan_state :=
  let status := bss_entry_status nested
  let buf1 := if bss_status_assoc status ∧ 0 < sr.scanned ∧ sr.scanned < sr.bss_infos_length
    then fun i => if i = sr.scanned then sr.bss_infos 0 else sr.bss_infos i
    else sr.bss_infos
  let target := if bss_status_assoc status then 0 else sr.scanned
  if sr.bss_infos_length = 0 ∨ (sr.bss_infos_length ≤ sr.scanned ∧ target ≠ 0) then
    some { sr with bss_infos := buf1, scanned := sr.scanned + 1 }
  else
    match fill_bss (bss_entry_tb nested) status (buf1 target) with
    | none => none
    | some rec0 =>
      some { sr with bss_infos := fun i => if i = target then rec0 else buf1 i,
                     scanned := sr.scanned + 1 }

/-- The accumulation of a whole scan dump: the driver's BSS entries, in order,
each dispatched through `handle_NL80211_CMD_NEW_SCAN_RESULTS` to
`parse_NL80211_ATTR_BSS` against the shared context. -/
def parse_dump : List (List Nat) → scan_state → Option scan_state
  | [], sr => some sr
  | e :: rest, sr =>
    match parse_NL80211_ATTR_BSS e sr with
    | none => none
    | some sr' => parse_dump rest sr'

/-! ## Station information -/

/-- Modelled from the spec: `struct station_info` of the missing header
`wifi_scan.h` — BSSID, SSID and status copied from the associated BSS record,
signal in dBm, received and transmitted packet counts.  The fields are written
exactly as `parse_NL80211_ATTR_STA_INFO` and `wifi_scan_station` do in the
provided source. -/
structure station_info where
  bssid : List Nat
  ssid : List Nat
  status : Nat
  signal_dbm : Int
  rx_packets : Nat
  tx_packets : Nat
deriving DecidableEq

/-- An all-zero `station_info`. -/
def station_zero : station_info :=
  ⟨List.replicate 6 0, List.replicate 33 0, 0, 0, 0, 0⟩

/-- The validated attribute table of a nested `NL80211_ATTR_STA_INFO`
payload (parse status ignored, as in the source). -/
def sta_info_tb (nested : List Nat) : Nat → Option nlattr :=
  (mnl_attr_parse_payload NL80211_STA_INFO_VALIDATION NL80211_STA_INFO_MAX nested).2

/-- `parse_NL80211_ATTR_STA_INFO`: signal (a u8 reinterpreted as `int8_t`),
rx-packets and tx-packets are stored when present; absent attributes leave the
caller's record untouched. -/
def parse_NL80211_ATTR_STA_INFO (nested : List Nat) (station : station_info) : station_info :=
  let tb := sta_info_tb nested
  let s1 := match tb 7 with
    | some a => { station with signal_dbm := signedChar (a.payload.getD 0 0) }
    | none => station
  let s2 := match tb 9 with
    | some a => { s1 with rx_packets := readU32LE a.payload }
    | none => s1
  match tb 10 with
  | some a => { s2 with tx_packets := readU32LE a.payload }
  | none => s2

/-! ## Family and multicast-group resolution (`CTRL_CMD_GETFAMILY`) -/

/-- `CTRL_ATTR_FAMILY_ID` from `linux/genetlink.h`. -/
def CTRL_ATTR_FAMILY_ID : Nat := 1

/-- `CTRL_ATTR_MCAST_GROUPS` from `linux/genetlink.h`. -/
def CTRL_ATTR_MCAST_GROUPS : Nat := 7

/-- `CTRL_ATTR_MAX` from `linux/genetlink.h`. -/
def CTRL_ATTR_MAX : Nat := 7

/-- `CTRL_ATTR_MCAST_GRP_NAME` from `linux/genetlink.h`. -/
def CTRL_ATTR_MCAST_GRP_NAME : Nat := 1

/-- `CTRL_ATTR_MCAST_GRP_ID` from `linux/genetlink.h`. -/
def CTRL_ATTR_MCAST_GRP_ID : Nat := 2

/-- `CTRL_ATTR_MCAST_GRP_MAX` from `linux/genetlink.h`. -/
def CTRL_ATTR_MCAST_GRP_MAX : Nat := 2

/-- `struct context_CTRL_CMD_GETFAMILY`: the resolved scan multicast group id
(0 while unresolved). -/
structure context_CTRL_CMD_GETFAMILY where
  id_NL80211_MULTICAST_GROUP_SCAN : Nat
deriving DecidableEq

/-- The C string a byte payload denotes: its bytes up to the first zero. -/
def cstring (l : List Nat) : List Nat := l.takeWhile (fun b => b ≠ 0)

/-- The bytes of the string literal `"scan"`. -/
def scanName : List Nat := [115, 99, 97, 110]

/-- One iteration of `parse_CTRL_ATTR_MCAST_GROUPS`: validate the nested
attribute set of one multicast-group entry; when a name attribute is present
and reads `"scan"`, require the id attribute (its absence fails the whole
parse) and store the group id into the context. -/
def parse_one_mcast_group (pos : nlattr) (context : context_CTRL_CMD_GETFAMILY) :
    Option context_CTRL_CMD_GETFAMILY :=
  let tb := (mnl_attr_parse_payload NL80211_MCAST_GROUPS_VALIDATION CTRL_ATTR_MCAST_GRP_MAX
    pos.payload).2
  match tb CTRL_ATTR_MCAST_GRP_NAME with
  | none => some context
  | some namea =>
    if cstring namea.payload = scanName then
      match tb CTRL_ATTR_MCAST_GRP_ID with
      | some ida =>
        some { context with id_NL80211_MULTICAST_GROUP_SCAN := readU32LE ida.payload }
      | none => none
    else some context

/-- `parse_CTRL_ATTR_MCAST_GROUPS`: iterate the nested multicast-group
entries; `none` is the `false` return (missing id attribute for the scan
group). -/
def parse_CTRL_ATTR_MCAST_GROUPS (nested : nlattr) (context : context_CTRL_CMD_GETFAMILY) :
    Option context_CTRL_CMD_GETFAMILY :=
  (mnl_attr_stream_of nested.payload).foldlM (fun c pos => parse_one_mcast_group pos c) context

/-- The channel state `handle_CTRL_CMD_GETFAMILY` manipulates: the resolved
family id stored in the channel, and the get-family context hanging off it. -/
structure getfamily_state where
  nl80211_id : Nat
  context : context_CTRL_CMD_GETFAMILY
deriving DecidableEq

/-- `handle_CTRL_CMD_GETFAMILY` on the generic-netlink payload of one reply
message (the bytes after the genl header): validate the attribute set,
ignoring the parse status, as the source does; fail when the family id is
absent; store the family id; when the multicast-group list is present, parse
it (its failure is the handler's only other error). -/
def handle_CTRL_CMD_GETFAMILY (payload : List Nat) (s : getfamily_state) :
    Int × getfamily_state :=
  let tb := (mnl_attr_parse_payload NL80211_VALIDATION CTRL_ATTR_MAX payload).2
  match tb CTRL_ATTR_FAMILY_ID with
  | none => (MNL_CB_ERROR, s)
  | some fam =>
    let s1 := { s with nl80211_id := readU16LE fam.payload }
    match tb CTRL_ATTR_MCAST_GROUPS with
    | some groups =>
      match parse_CTRL_ATTR_MCAST_GROUPS groups s1.context with
      | some context' => (MNL_CB_OK, { s1 with context := context' })
      | none => (MNL_CB_ERROR, s1)
    | none => (MNL_CB_OK, s1)

/-! ## Scan notifications -/

/-- `NL80211_CMD_TRIGGER_SCAN` from `linux/nl80211.h`. -/
def NL80211_CMD_TRIGGER_SCAN : Nat := 33

/-- `NL80211_CMD_NEW_SCAN_RESULTS` from `linux/nl80211.h`. -/
def NL80211_CMD_NEW_SCAN_RESULTS : Nat := 34

/-- `struct context_NL80211_MULTICAST_GROUP_SCAN`: the two notification flags
(C ints, 0 or 1). -/
structure context_NL80211_MULTICAST_GROUP_SCAN where
  new_scan_results : Nat
  scan_triggered : Nat
deriving DecidableEq

/-- `handle_NL80211_MULTICAST_GROUP_SCAN` on one notification message: a
trigger-scan command records that a scan was triggered; a new-scan-results
command records fresh results only when the message's port id and sequence
number are both zero (an unsolicited multicast broadcast); anything else is
ignored.  All three cases return `MNL_CB_OK`. -/
def handle_NL80211_MULTICAST_GROUP_SCAN (nlmsg_pid nlmsg_seq genl_cmd : Nat)
    (context : context_NL80211_MULTICAST_GROUP_SCAN) :
    Int × context_NL80211_MULTICAST_GROUP_SCAN :=
  if genl_cmd = NL80211_CMD_TRIGGER_SCAN then
    (MNL_CB_OK, { context with scan_triggered := 1 })
  else if genl_cmd = NL80211_CMD_NEW_SCAN_RESULTS then
    (MNL_CB_OK,
      if nlmsg_pid = 0 ∧ nlmsg_seq = 0 then { context with new_scan_results := 1 } else context)
  else
    (MNL_CB_OK, context)

/-! ## Netlink channel, message preparation and the receive loop -/

/-- The 32-bit wrap of the `uint32_t` sequence counter. -/
def UINT32_MOD : Nat := 4294967296

/-- `struct netlink_channel`, restricted to the protocol-visible fields (the
socket and the scratch buffer live at the transport boundary). -/
structure netlink_channel where
  sequence : Nat
  nl80211_id : Nat
  ifindex : Nat
deriving DecidableEq

/-- `init_netlink_channel`: the sequence counter starts at 1 and the interface
index is resolved; a zero index (no such interface) or a socket failure fails
the initialisation. -/
def init_netlink_channel (channel : netlink_channel) (ifindex : Nat) (socket_ok : Bool) :
    Option netlink_channel :=
  let channel1 := { channel with sequence := 1, ifindex := ifindex }
  if ifindex = 0 then none
  else if socket_ok then some channel1 else none

/-- The netlink and generic-netlink headers `prepare_nl_message` writes into
the channel's buffer. -/
structure nlmsghdr_model where
  nlmsg_type : Nat
  nlmsg_flags : Nat
  nlmsg_seq : Nat
  genl_cmd : Nat
  genl_version : Nat
deriving DecidableEq

/-- `prepare_nl_message`: the request carries the channel's current sequence
number and generic-netlink version 1.  The channel itself is not modified. -/
def prepare_nl_message (ty fl genl_cmd : Nat) (channel : netlink_channel) : nlmsghdr_model :=
  { nlmsg_type := ty, nlmsg_flags := fl, nlmsg_seq := channel.sequence,
    genl_cmd := genl_cmd, genl_version := 1 }

/-- The receive/dispatch loop of `receive_nl_message`: starting from the first
`recvfrom` result, the loop keeps running while the last result is positive,
each iteration producing the next result (a `mnl_cb_run` outcome alternating
with the next `recvfrom` outcome, both decided at the transport boundary and
supplied as the event list). -/
def receive_loop : Int → List Int → Int
  | ret, [] => ret
  | ret, r :: rest => if ret ≤ 0 then ret else receive_loop r rest

/-- `receive_nl_message`: run the receive/dispatch loop, then increment the
channel's sequence counter — exactly once, after the exchange, on success and
failure alike. -/
def receive_nl_message (events : List Int) (first : Int) (channel : netlink_channel) :
    Int × netlink_channel :=
  (receive_loop first events, { channel with sequence := (channel.sequence + 1) % UINT32_MOD })

/-- A sequence of completed request/response exchanges on one channel: each
element carries the transport outcomes of one `receive_nl_message` call. -/
def run_exchanges : netlink_channel → List (List Int × Int) → netlink_channel
  | channel, [] => channel
  | channel, (events, first) :: rest =>
    run_exchanges (receive_nl_message events first channel).2 rest

/-! ## The public scan operations -/

/-- `trigger_scan_if_necessary`: trigger only when neither flag from the drain
phase is set; a trigger failure (`-1`, typically the busy device) is passed
through. -/
def trigger_scan_if_necessary (scanning : context_NL80211_MULTICAST_GROUP_SCAN)
    (trigger_ret : Int) : Int :=
  if scanning.new_scan_results = 0 ∧ scanning.scan_triggered = 0 then
    if trigger_ret = -1 then -1 else 0
  else 0

/-- The transport outcomes of one `wifi_scan_all` run: whether the
non-blocking drain succeeded, the notification flags it left, the result a
trigger request would return, whether the blocking wait succeeded, the status
`get_scan`'s receive loop returns, and the BSS entries the dump delivers. -/
structure scan_all_env where
  read_past_ok : Bool
  scanning : context_NL80211_MULTICAST_GROUP_SCAN
  trigger_ret : Int
  wait_ok : Bool
  get_scan_ret : Int
  dump : List (List Nat)

/-- `get_scan`: issue the dump request and accumulate the delivered BSS
entries into the scan context; the first component is the status its receive
loop reports. -/
def get_scan (env : scan_all_env) (sr : scan_state) : Int × Option scan_state :=
  (env.get_scan_ret, parse_dump env.dump sr)

/-- `wifi_scan_all`: drain past notifications (failure returns -1), trigger if
necessary (failure returns -1), wait for fresh results (failure returns -1),
then read the dump — whose status the source discards — and return the
`scanned` count.  The second component is the caller's buffer.  `none` when
dump processing hits the SSID sub-parser's undetermined behaviour. -/
def wifi_scan_all (env : scan_all_env) (bss_infos : Nat → bss_info)
    (bss_infos_length : Nat) : Option (Int × (Nat → bss_info)) :=
  if ¬ env.read_past_ok then some (-1, bss_infos)
  else if trigger_scan_if_necessary env.scanning env.trigger_ret = -1 then some (-1, bss_infos)
  else if ¬ env.wait_ok then some (-1, bss_infos)
  else
    match get_scan env ⟨bss_infos, bss_infos_length, 0⟩ with
    | (_ret, none) => none
    | (_ret, some sr) => some ((sr.scanned : Int), sr.bss_infos)

/-- The transport outcomes of one `wifi_scan_station` run: the contents of the
uninitialised stack record `bss`, the status and entries of the 1-capacity
scan dump, the nested station-info payload processed during the station query
(when its reply carried one), and the station query's status. -/
structure station_env where
  initial_bss : bss_info
  get_scan_ret : Int
  dump : List (List Nat)
  sta_info : Option (List Nat)
  get_station_ret : Int

/-- `wifi_scan_station`: run a 1-capacity dump into a stack `bss_info`; return
0 when the dump request failed or reported zero entries; otherwise query the
station for the BSSID in that record (0 on failure), populate the output from
the station reply, copy BSSID, SSID and status from the BSS record, and
return 1.  `none` when dump processing hits the SSID sub-parser's undetermined
behaviour. -/
def wifi_scan_station (env : station_env) (station : station_info) :
    Option (Int × station_info) :=
  match parse_dump env.dump ⟨fun _ => env.initial_bss, 1, 0⟩ with
  | none => none
  | some sr =>
    if env.get_scan_ret = MNL_CB_ERROR then some (0, station)
    else if sr.scanned = 0 then some (0, station)
    else
      let bss := sr.bss_infos 0
      let station1 := match env.sta_info with
        | some nested => parse_NL80211_ATTR_STA_INFO nested station
        | none => station
      if env.get_station_ret = MNL_CB_ERROR then some (0, station1)
      else
        some (1, { station1 with bssid := bss.bssid, ssid := bss.ssid, status := bss.status })

/-! ## Concrete wire inputs used by the witnesses and counterexamples -/

/-- Encode one netlink attribute record (header, payload, 4-byte padding), the
wire format `mnl_attr_stream` decodes. -/
def mkAttr (typ : Nat) (payload : List Nat) : List Nat :=
  let nla_len := 4 + payload.length
  [nla_len % 256, nla_len / 256 % 256, typ % 256, typ / 256 % 256] ++ payload
    ++ List.replicate (align4 nla_len - nla_len) 0

/-- Dump entry NonAssociated#1: BSSID `01:…:01`, frequency 2412, SSID "A",
signal 10, seen 20 ms ago, no status attribute. -/
def entryNonAssoc1 : List Nat :=
  mkAttr NL80211_BSS_BSSID [1, 1, 1, 1, 1, 1] ++
  mkAttr NL80211_BSS_FREQUENCY [108, 9, 0, 0] ++
  mkAttr NL80211_BSS_INFORMATION_ELEMENTS [0, 1, 65] ++
  mkAttr NL80211_BSS_SIGNAL_MBM [10, 0, 0, 0] ++
  mkAttr NL80211_BSS_SEEN_MS_AGO [20, 0, 0, 0]

/-- Dump entry Associated#2: BSSID `02:…:02`, frequency 2437, SSID "abc",
signal 100, seen 50 ms ago, status associated (1). -/
def entryAssoc2 : List Nat :=
  mkAttr NL80211_BSS_BSSID [2, 2, 2, 2, 2, 2] ++
  mkAttr NL80211_BSS_FREQUENCY [133, 9, 0, 0] ++
  mkAttr NL80211_BSS_INFORMATION_ELEMENTS [0, 3, 97, 98, 99] ++
  mkAttr NL80211_BSS_SIGNAL_MBM [100, 0, 0, 0] ++
  mkAttr NL80211_BSS_SEEN_MS_AGO [50, 0, 0, 0] ++
  mkAttr NL80211_BSS_STATUS [1, 0, 0, 0]

/-- Dump entry NonAssociated#3: BSSID `03:…:03`, no status attribute. -/
def entryNonAssoc3 : List Nat :=
  mkAttr NL80211_BSS_BSSID [3, 3, 3, 3, 3, 3]

/-- The record NonAssociated#1 decodes to over zeroed storage. -/
def recNonAssoc1 : bss_info :=
  ⟨[1, 1, 1, 1, 1, 1], 2412, 65 :: List.replicate 32 0, 10, 20, BSS_NONE⟩

/-- The record Associated#2 decodes to. -/
def recAssoc2 : bss_info :=
  ⟨[2, 2, 2, 2, 2, 2], 2437, 97 :: 98 :: 99 :: List.replicate 30 0, 100, 50,
    NL80211_BSS_STATUS_ASSOCIATED⟩

/-- A `CTRL_CMD_GETFAMILY` reply payload whose family-id attribute is valid
but whose multicast-group attribute violates its table entry (a 2-byte
payload for a nested attribute), followed by a further attribute. -/
def c4_payload : List Nat :=
  mkAttr CTRL_ATTR_FAMILY_ID [57, 3] ++ mkAttr CTRL_ATTR_MCAST_GROUPS [0, 0] ++
    mkAttr 3 [1, 0, 0, 0]

/-- A `wifi_scan_all` run where draining, triggering and waiting all succeed
but the final dump request fails (`MNL_CB_ERROR`) having delivered no entry. -/
def c2_env : scan_all_env :=
  ⟨true, ⟨1, 0⟩, 0, true, MNL_CB_ERROR, []⟩

/-- A `wifi_scan_station` run whose 1-capacity dump succeeds with exactly one
BSS entry that carries no attributes at all (in particular no status, hence
not associated), and whose station query succeeds without a station-info
attribute. -/
def c5_env : station_env :=
  ⟨bss_zero, 0, [[]], some [], 0⟩

/-- A `wifi_scan_station` run whose dump request fails. -/
def c5_env_err : station_env :=
  ⟨bss_zero, MNL_CB_ERROR, [], none, 0⟩

/-! ## Helper lemmas about the placement routine -/

/-- A filled record's status field is always the status value passed in. -/
theorem fill_bss_status {tb : Nat → Option nlattr} {status : Nat} {old rec0 : bss_info}
    (h : fill_bss tb status old = some rec0) : rec0.status = status := by
  simp only [fill_bss] at h
  repeat split at h
  all_goals simp_all
  all_goals (subst h; rfl)

/-- Each processed BSS entry increments `scanned` by exactly one and leaves the
declared capacity unchanged. -/
theorem parse_NL80211_ATTR_BSS_step {e : List Nat} {sr sr' : scan_state}
    (h : parse_NL80211_ATTR_BSS e sr = some sr') :
    sr'.scanned = sr.scanned + 1 ∧ sr'.bss_infos_length = sr.bss_infos_length := by
  simp only [parse_NL80211_ATTR_BSS] at h
  repeat' split at h
  all_goals first
  | exact Option.noConfusion h
  | (injection h with h'; subst h'; exact ⟨rfl, rfl⟩)

/-- Over a whole dump, `scanned` grows by the number of entries and the
capacity is unchanged. -/
theorem parse_dump_scanned {entries : List (List Nat)} :
    ∀ {sr sr' : scan_state}, parse_dump entries sr = some sr' →
      sr'.scanned = sr.scanned + entries.length ∧
      sr'.bss_infos_length = sr.bss_infos_length := by
  induction entries with
  | nil =>
    intro sr sr' h
    have h' := Option.some.inj h
    subst h'
    exact ⟨rfl, rfl⟩
  | cons e rest ih =>
    intro sr sr' h
    simp only [parse_dump] at h
    cases hstep : parse_NL80211_ATTR_BSS e sr with
    | none => rw [hstep] at h; exact absurd h (by simp)
    | some sr1 =>
      rw [hstep] at h
      obtain ⟨h1, h2⟩ := parse_NL80211_ATTR_BSS_step hstep
      obtain ⟨h3, h4⟩ := ih h
      refine ⟨?_, by rw [h4, h2]⟩
      rw [h3, h1]
      simp [List.length_cons]
      omega

/-- With a zero-capacity buffer every entry takes the counting-only branch:
the buffer is untouched and processing always succeeds. -/
theorem parse_NL80211_ATTR_BSS_cap0 {e : List Nat} {sr : scan_state}
    (h0 : sr.bss_infos_length = 0) :
    parse_NL80211_ATTR_BSS e sr = some { sr with scanned := sr.scanned + 1 } := by
  simp only [parse_NL80211_ATTR_BSS]
  rw [if_pos (Or.inl h0)]
  congr 1
  split
  · next hcond => exact absurd hcond (by rintro ⟨-, -, hlt⟩; omega)
  · rfl

/-- Zero-capacity dump: `scanned` counts every entry and nothing is written. -/
theorem parse_dump_cap0 {entries : List (List Nat)} :
    ∀ {sr : scan_state}, sr.bss_infos_length = 0 →
      parse_dump entries sr = some { sr with scanned := sr.scanned + entries.length } := by
  induction entries with
  | nil =>
    intro sr h0
    simp [parse_dump]
  | cons e rest ih =>
    intro sr h0
    simp only [parse_dump]
    rw [parse_NL80211_ATTR_BSS_cap0 h0]
    show parse_dump rest { sr with scanned := sr.scanned + 1 } = _
    rw [@ih { sr with scanned := sr.scanned + 1 } h0]
    have hl : sr.scanned + 1 + rest.length = sr.scanned + (e :: rest).length := by
      simp [List.length_cons]
      omega
    rw [hl]

/-- One processed entry never changes any buffer slot at or beyond the
declared capacity. -/
theorem parse_NL80211_ATTR_BSS_frame {e : List Nat} {sr sr' : scan_state}
    (h : parse_NL80211_ATTR_BSS e sr = some sr') :
    ∀ i, sr.bss_infos_length ≤ i → sr'.bss_infos i = sr.bss_infos i := by
  intro i hi
  simp only [parse_NL80211_ATTR_BSS] at h
  repeat' split at h
  all_goals first
  | exact Option.noConfusion h
  | (injection h with h'; subst h')
  all_goals simp_all
  all_goals repeat rw [if_neg (by omega)]
  all_goals (intro h0; exfalso; omega)

/-- A whole dump never changes any buffer slot at or beyond the declared
capacity. -/
theorem parse_dump_frame {entries : List (List Nat)} :
    ∀ {sr sr' : scan_state}, parse_dump entries sr = some sr' →
      ∀ i, sr.bss_infos_length ≤ i → sr'.bss_infos i = sr.bss_infos i := by
  induction entries with
  | nil =>
    intro sr sr' h i hi
    injection h with h'
    subst h'
    rfl
  | cons e rest ih =>
    intro sr sr' h i hi
    simp only [parse_dump] at h
    cases hstep : parse_NL80211_ATTR_BSS e sr with
    | none => rw [hstep] at h; exact Option.noConfusion h
    | some sr1 =>
      rw [hstep] at h
      have hlen := (parse_NL80211_ATTR_BSS_step hstep).2
      rw [ih h i (by omega)]
      exact parse_NL80211_ATTR_BSS_frame hstep i hi

/-- One step of the slot-0 invariant: processing an associated entry (with a
non-trivial buffer) puts an associated status into slot 0, and a
non-associated entry can never displace it once `scanned` is positive. -/
theorem parse_NL80211_ATTR_BSS_slot0 {e : List Nat} {sr sr' : scan_state}
    (h : parse_NL80211_ATTR_BSS e sr = some sr') (hcap : 1 ≤ sr.bss_infos_length)
    (hass : bss_status_assoc (bss_entry_status e) ∨
      (bss_status_assoc ((sr.bss_infos 0).status) ∧ 1 ≤ sr.scanned)) :
    bss_status_assoc ((sr'.bss_infos 0).status) ∧ 1 ≤ sr'.scanned := by
  by_cases hA : bss_status_assoc (bss_entry_status e)
  · simp only [parse_NL80211_ATTR_BSS, if_pos hA] at h
    split at h
    · next hcond => exact absurd hcond (by rintro (h0 | ⟨-, h00⟩) <;> omega)
    · split at h
      · exact Option.noConfusion h
      · next rec0 hf =>
        injection h with h'
        subst h'
        refine ⟨?_, by show 1 ≤ sr.scanned + 1; omega⟩
        simpa [fill_bss_status hf] using hA
  · obtain ⟨hs0, hs1⟩ := hass.resolve_left hA
    simp only [parse_NL80211_ATTR_BSS, if_neg hA] at h
    split at h
    · injection h with h'
      subst h'
      refine ⟨?_, by show 1 ≤ sr.scanned + 1; omega⟩
      simpa [hA] using hs0
    · split at h
      · exact Option.noConfusion h
      · next rec0 hf =>
        injection h with h'
        subst h'
        refine ⟨?_, by show 1 ≤ sr.scanned + 1; omega⟩
        simp only [hA, false_and, if_false]
        rw [if_neg (by omega)]
        exact hs0

/-- The slot-0 invariant is preserved by the rest of a dump. -/
theorem parse_dump_slot0_preserve {entries : List (List Nat)} :
    ∀ {sr sr' : scan_state}, parse_dump entries sr = some sr' → 1 ≤ sr.bss_infos_length →
      bss_status_assoc ((sr.bss_infos 0).status) → 1 ≤ sr.scanned →
      bss_status_assoc ((sr'.bss_infos 0).status) ∧ 1 ≤ sr'.scanned := by
  induction entries with
  | nil =>
    intro sr sr' h _ h0 h1
    injection h with h'
    subst h'
    exact ⟨h0, h1⟩
  | cons e rest ih =>
    intro sr sr' h hcap h0 h1
    simp only [parse_dump] at h
    cases hstep : parse_NL80211_ATTR_BSS e sr with
    | none => rw [hstep] at h; exact Option.noConfusion h
    | some sr1 =>
      rw [hstep] at h
      have hl := (parse_NL80211_ATTR_BSS_step hstep).2
      have hp := parse_NL80211_ATTR_BSS_slot0 hstep hcap (Or.inr ⟨h0, h1⟩)
      exact ih h (by omega) hp.1 hp.2

/-- After a dump containing an associated/IBSS-joined entry, slot 0 of a
non-trivial buffer holds an associated/IBSS-joined status. -/
theorem parse_dump_slot0 {entries : List (List Nat)} :
    ∀ {sr sr' : scan_state}, parse_dump entries sr = some sr' → 1 ≤ sr.bss_infos_length →
      (∃ e ∈ entries, bss_status_assoc (bss_entry_status e)) →
      bss_status_assoc ((sr'.bss_infos 0).status) := by
  induction entries with
  | nil =>
    intro sr sr' h hcap hex
    exact absurd hex (by simp)
  | cons e rest ih =>
    intro sr sr' h hcap hex
    simp only [parse_dump] at h
    cases hstep : parse_NL80211_ATTR_BSS e sr with
    | none => rw [hstep] at h; exact Option.noConfusion h
    | some sr1 =>
      rw [hstep] at h
      have hl := (parse_NL80211_ATTR_BSS_step hstep).2
      by_cases hA : bss_status_assoc (bss_entry_status e)
      · have hp := parse_NL80211_ATTR_BSS_slot0 hstep hcap (Or.inl hA)
        exact (parse_dump_slot0_preserve h (by omega) hp.1 hp.2).1
      · obtain ⟨e', he', hA'⟩ := hex
        rcases List.mem_cons.mp he' with rfl | hmem
        · exact absurd hA' hA
        · exact ih h (by omega) ⟨e', hmem, hA'⟩

/-! ## The claims -/

/-- C1: feeding the dump `[NonAssociated#1, Associated#2, NonAssociated#3]`
through the BSS placement routine with capacity 2 leaves the buffer
`[Associated#2, NonAssociated#1]` and reports `scanned = 3`; with capacity 0,
`scanned` equals the number of entries and nothing is written; in general
`scanned` counts every entry the driver returned independently of capacity,
and slot 0 of a non-trivial buffer holds an associated/IBSS-joined BSS
whenever the dump contains one, wherever it arrives. -/
theorem c1_bounded_placement :
    ((parse_dump [entryNonAssoc1, entryAssoc2, entryNonAssoc3] ⟨fun _ => bss_zero, 2, 0⟩).map
        (fun sr => (sr.bss_infos 0, sr.bss_infos 1, sr.scanned)) =
      some (recAssoc2, recNonAssoc1, 3)) ∧
    (∀ entries : List (List Nat), ∀ sr : scan_state, sr.bss_infos_length = 0 →
      parse_dump entries sr = some { sr with scanned := sr.scanned + entries.length }) ∧
    (∀ entries : List (List Nat), ∀ sr sr' : scan_state, parse_dump entries sr = some sr' →
      sr'.scanned = sr.scanned + entries.length) ∧
    (∀ entries : List (List Nat), ∀ sr sr' : scan_state, parse_dump entries sr = some sr' →
      1 ≤ sr.bss_infos_length →
      (∃ e ∈ entries, bss_status_assoc (bss_entry_status e)) →
      bss_status_assoc ((sr'.bss_infos 0).status)) := by
  refine ⟨by decide, ?_, ?_, ?_⟩
  · intro entries sr h0
    exact parse_dump_cap0 h0
  · intro entries sr sr' h
    exact (parse_dump_scanned h).1
  · intro entries sr sr' h hcap hex
    exact parse_dump_slot0 h hcap hex

/-- Witness for C1: the zero-capacity conjunct applied to a concrete one-entry
dump, and the slot-0 conjunct applied to a concrete dump holding one
associated entry. -/
theorem c1_bounded_placement_witness :
    parse_dump [entryNonAssoc3] ⟨fun _ => bss_zero, 0, 0⟩ =
      some ⟨fun _ => bss_zero, 0, 0 + 1⟩ ∧
    bss_status_assoc
      ((((parse_dump [entryAssoc2] ⟨fun _ => bss_zero, 1, 0⟩).getD
          ⟨fun _ => bss_zero, 1, 0⟩).bss_infos 0).status) := by
  constructor
  · exact c1_bounded_placement.2.1 [entryNonAssoc3] ⟨fun _ => bss_zero, 0, 0⟩ rfl
  · exact c1_bounded_placement.2.2.2 [entryAssoc2] ⟨fun _ => bss_zero, 1, 0⟩
      ((parse_dump [entryAssoc2] ⟨fun _ => bss_zero, 1, 0⟩).getD ⟨fun _ => bss_zero, 1, 0⟩)
      rfl (by decide) ⟨entryAssoc2, by decide, by decide⟩

/-- C10: for any capacity `N ≥ 0` and any entry sequence, the placement
routine never writes a buffer slot at or beyond `N` — slots outside the
caller's buffer are left exactly as they were — and an entry whose target slot
is out of range only increments the `scanned` counter. -/
theorem c10_no_out_of_bounds_writes :
    (∀ entries : List (List Nat), ∀ sr sr' : scan_state, parse_dump entries sr = some sr' →
      ∀ i, sr.bss_infos_length ≤ i → sr'.bss_infos i = sr.bss_infos i) ∧
    (∀ e : List Nat, ∀ sr : scan_state, ¬ bss_status_assoc (bss_entry_status e) →
      sr.bss_infos_length ≤ sr.scanned →
      parse_NL80211_ATTR_BSS e sr = some { sr with scanned := sr.scanned + 1 }) := by
  constructor
  · intro entries sr sr' h i hi
    exact parse_dump_frame h i hi
  · intro e sr hA hle
    simp only [parse_NL80211_ATTR_BSS, if_neg hA]
    rw [if_pos]
    · congr 1
      split
      · next hcond => exact absurd hcond (by rintro ⟨ha, -⟩; exact hA ha)
      · rfl
    · rcases Nat.eq_zero_or_pos sr.scanned with h0 | h0
      · exact Or.inl (by omega)
      · exact Or.inr ⟨hle, by omega⟩

/-- Witness for C10: the frame conjunct applied to a concrete capacity-1 dump
of two entries, observed at slot 1, and the counting-only conjunct applied to
a concrete non-associated entry against a full buffer. -/
theorem c10_no_out_of_bounds_writes_witness :
    ((parse_dump [entryNonAssoc1, entryNonAssoc3] ⟨fun _ => bss_zero, 1, 0⟩).getD
        ⟨fun _ => bss_zero, 1, 0⟩).bss_infos 1 = bss_zero ∧
    parse_NL80211_ATTR_BSS entryNonAssoc3 ⟨fun _ => bss_zero, 1, 1⟩ =
      some ⟨fun _ => bss_zero, 1, 1 + 1⟩ := by
  constructor
  · exact c10_no_out_of_bounds_writes.1 [entryNonAssoc1, entryNonAssoc3]
      ⟨fun _ => bss_zero, 1, 0⟩
      ((parse_dump [entryNonAssoc1, entryNonAssoc3] ⟨fun _ => bss_zero, 1, 0⟩).getD
        ⟨fun _ => bss_zero, 1, 0⟩) rfl 1 (by decide)
  · exact c10_no_out_of_bounds_writes.2 entryNonAssoc3 ⟨fun _ => bss_zero, 1, 1⟩
      (by decide) (by decide)

/-- Filling a record whose attribute set has no information-element attribute
always succeeds (the SSID sub-parser is the only fallible step). -/
theorem fill_bss_no_ie_isSome {tb : Nat → Option nlattr} (status : Nat) (old : bss_info)
    (hie : tb NL80211_BSS_INFORMATION_ELEMENTS = none) :
    (fill_bss tb status old).isSome = true := by
  simp only [fill_bss, hie]
  repeat' split
  all_goals rfl

/-- C8: a 6-byte BSSID attribute payload is decoded byte for byte; any other
length decodes to the all-zero BSSID (logged); and a malformed BSSID does not
stop the record fill — the remaining attributes of the same BSS entry are
still decoded and the status still stored. -/
theorem c8_bssid_parsing :
    (∀ p : List Nat, p.length = 6 → parse_NL80211_BSS_BSSID p = p) ∧
    (∀ p : List Nat, p.length ≠ 6 → parse_NL80211_BSS_BSSID p = List.replicate 6 0) ∧
    (∀ tb : Nat → Option nlattr, ∀ status : Nat, ∀ old rec0 : bss_info,
      fill_bss tb status old = some rec0 →
      (∀ a : nlattr, tb NL80211_BSS_BSSID = some a →
        rec0.bssid = parse_NL80211_BSS_BSSID a.payload) ∧
      (∀ a : nlattr, tb NL80211_BSS_FREQUENCY = some a →
        rec0.frequency = readU32LE a.payload) ∧
      rec0.status = status) ∧
    (∀ tb : Nat → Option nlattr, ∀ status : Nat, ∀ old : bss_info,
      tb NL80211_BSS_INFORMATION_ELEMENTS = none →
      (fill_bss tb status old).isSome = true) := by
  refine ⟨?_, ?_, ?_, ?_⟩
  · intro p hp
    simp [parse_NL80211_BSS_BSSID, BSSID_LENGTH, hp]
  · intro p hp
    simp [parse_NL80211_BSS_BSSID, BSSID_LENGTH, hp]
  · intro tb status old rec0 h
    refine ⟨?_, ?_, fill_bss_status h⟩
    · intro a ha
      simp only [fill_bss, ha] at h
      repeat' split at h
      all_goals first
      | exact Option.noConfusion h
      | (injection h with h'; subst h'; rfl)
    · intro a ha
      simp only [fill_bss, ha] at h
      repeat' split at h
      all_goals first
      | exact Option.noConfusion h
      | (injection h with h'; subst h'; rfl)
  · intro tb status old hie
    exact fill_bss_no_ie_isSome status old hie

/-- Witness for C8: both length cases at concrete payloads. -/
theorem c8_bssid_parsing_witness :
    parse_NL80211_BSS_BSSID [9, 8, 7, 6, 5, 4] = [9, 8, 7, 6, 5, 4] ∧
    parse_NL80211_BSS_BSSID [1, 2] = List.replicate 6 0 :=
  ⟨c8_bssid_parsing.1 [9, 8, 7, 6, 5, 4] (by decide),
   c8_bssid_parsing.2.1 [1, 2] (by decide)⟩

/-- C9 counterexample: a BSS entry with no attributes at all, parsed into a
slot whose caller-supplied status is 7, leaves status `BSS_NONE` — the status
field does not retain the caller-supplied initial value. -/
theorem c9_unfilled_fields_counterexample :
    (parse_dump [[]] ⟨fun _ => { bss_zero with status := 7 }, 1, 0⟩).map
        (fun sr => (sr.bss_infos 0).status) = some BSS_NONE ∧
    bss_entry_tb [] NL80211_BSS_STATUS = none ∧ BSS_NONE ≠ 7 := by
  decide

/-- C9 amended: every guarded field of a produced `BssInfo` (BSSID, frequency,
SSID, signal, seen-ms-ago) and every guarded field of a `StationInfo` (signal,
rx-packets, tx-packets) retains the caller-supplied value of the output
storage when its attribute is absent, and such absence is not an error; the
exception is the `BssInfo` status field, which is stored unconditionally
(`BSS_NONE` when the status attribute is absent). -/
theorem c9_unfilled_fields_amended :
    (∀ tb : Nat → Option nlattr, ∀ status : Nat, ∀ old rec0 : bss_info,
      fill_bss tb status old = some rec0 →
      (tb NL80211_BSS_BSSID = none → rec0.bssid = old.bssid) ∧
      (tb NL80211_BSS_FREQUENCY = none → rec0.frequency = old.frequency) ∧
      (tb NL80211_BSS_INFORMATION_ELEMENTS = none → rec0.ssid = old.ssid) ∧
      (tb NL80211_BSS_SIGNAL_MBM = none → rec0.signal_mbm = old.signal_mbm) ∧
      (tb NL80211_BSS_SEEN_MS_AGO = none → rec0.seen_ms_ago = old.seen_ms_ago) ∧
      rec0.status = status) ∧
    (∀ e : List Nat, ∀ sr : scan_state,
      bss_entry_tb e NL80211_BSS_INFORMATION_ELEMENTS = none →
      (parse_NL80211_ATTR_BSS e sr).isSome = true) ∧
    (∀ nested : List Nat, ∀ station : station_info,
      (sta_info_tb nested 7 = none →
        (parse_NL80211_ATTR_STA_INFO nested station).signal_dbm = station.signal_dbm) ∧
      (sta_info_tb nested 9 = none →
        (parse_NL80211_ATTR_STA_INFO nested station).rx_packets = station.rx_packets) ∧
      (sta_info_tb nested 10 = none →
        (parse_NL80211_ATTR_STA_INFO nested station).tx_packets = station.tx_packets)) := by
  refine ⟨?_, ?_, ?_⟩
  · intro tb status old rec0 h
    refine ⟨?_, ?_, ?_, ?_, ?_, fill_bss_status h⟩
    all_goals intro habs
    all_goals
      simp only [fill_bss, habs] at h
    all_goals
      repeat' split at h
    all_goals first
    | exact Option.noConfusion h
    | (injection h with h'; subst h'; rfl)
  · intro e sr hie
    simp only [parse_NL80211_ATTR_BSS]
    repeat' split
    all_goals try rfl
    all_goals
      rename_i hf
    all_goals
      simp only [fill_bss, hie] at hf
    all_goals
      exact Option.noConfusion hf
  · intro nested station
    refine ⟨?_, ?_, ?_⟩
    all_goals intro habs
    all_goals
      simp only [parse_NL80211_ATTR_STA_INFO, habs]
    all_goals
      repeat' split
    all_goals rfl

/-- Witness for C9 amended: an empty attribute table filled over zeroed
storage with status 5 keeps the caller's BSSID. -/
theorem c9_unfilled_fields_amended_witness :
    ({ bss_zero with status := 5 } : bss_info).bssid = bss_zero.bssid :=
  (c9_unfilled_fields_amended.1 (fun _ => none) 5 bss_zero
    { bss_zero with status := 5 } rfl).1 rfl

/-- C3 (code bug): the SSID information-element parser reads past a 1-byte
payload `[0x00]` (it dereferences `payload[1]` before any check of the
declared length), and a declared-length byte of 128, read as a signed `char`,
slips past both range checks into a wrapped-size `strncpy` — in both cases the
behaviour is not determined by the payload (`none`), where the claim requires
a logged empty SSID and no out-of-bounds access.  Well-formed payloads and the
in-range malformed shapes behave as the claim states. -/
theorem c3_ssid_information_elements_bug :
    parse_NL80211_BSS_INFORMATION_ELEMENTS [0] (List.replicate 33 0) = none ∧
    parse_NL80211_BSS_INFORMATION_ELEMENTS [0, 128] (List.replicate 33 0) = none ∧
    parse_NL80211_BSS_INFORMATION_ELEMENTS [0, 3, 97, 98, 99] (List.replicate 33 0) =
      some (97 :: 98 :: 99 :: List.replicate 30 0) ∧
    parse_NL80211_BSS_INFORMATION_ELEMENTS [0, 33, 1] (List.replicate 33 0) =
      some (List.replicate 33 0) ∧
    parse_NL80211_BSS_INFORMATION_ELEMENTS [1, 2, 3] (List.replicate 33 0) =
      some (List.replicate 33 0) ∧
    parse_NL80211_BSS_INFORMATION_ELEMENTS [0, 4, 97, 98] (List.replicate 33 0) =
      some (List.replicate 33 0) := by
  decide

/-- C6: a trigger-scan notification sets only the "scan triggered" flag; a
new-scan-results notification sets the "fresh results" flag exactly when its
sender port id and sequence number are both zero and otherwise changes
nothing; any other command changes nothing; none of these is an error. -/
theorem c6_notification_dispatch :
    ∀ nlmsg_pid nlmsg_seq genl_cmd : Nat, ∀ context : context_NL80211_MULTICAST_GROUP_SCAN,
      (genl_cmd = NL80211_CMD_TRIGGER_SCAN →
        handle_NL80211_MULTICAST_GROUP_SCAN nlmsg_pid nlmsg_seq genl_cmd context =
          (MNL_CB_OK, { context with scan_triggered := 1 })) ∧
      (genl_cmd = NL80211_CMD_NEW_SCAN_RESULTS → nlmsg_pid = 0 → nlmsg_seq = 0 →
        handle_NL80211_MULTICAST_GROUP_SCAN nlmsg_pid nlmsg_seq genl_cmd context =
          (MNL_CB_OK, { context with new_scan_results := 1 })) ∧
      (genl_cmd = NL80211_CMD_NEW_SCAN_RESULTS → ¬(nlmsg_pid = 0 ∧ nlmsg_seq = 0) →
        handle_NL80211_MULTICAST_GROUP_SCAN nlmsg_pid nlmsg_seq genl_cmd context =
          (MNL_CB_OK, context)) ∧
      (genl_cmd ≠ NL80211_CMD_TRIGGER_SCAN → genl_cmd ≠ NL80211_CMD_NEW_SCAN_RESULTS →
        handle_NL80211_MULTICAST_GROUP_SCAN nlmsg_pid nlmsg_seq genl_cmd context =
          (MNL_CB_OK, context)) := by
  intro pid seq cmd context
  refine ⟨?_, ?_, ?_, ?_⟩
  · intro h
    subst h
    simp [handle_NL80211_MULTICAST_GROUP_SCAN]
  · intro h hp hs
    subst h
    subst hp
    subst hs
    simp [handle_NL80211_MULTICAST_GROUP_SCAN, NL80211_CMD_TRIGGER_SCAN,
      NL80211_CMD_NEW_SCAN_RESULTS]
  · intro h hps
    subst h
    simp [handle_NL80211_MULTICAST_GROUP_SCAN, NL80211_CMD_TRIGGER_SCAN,
      NL80211_CMD_NEW_SCAN_RESULTS, hps]
  · intro h1 h2
    simp [handle_NL80211_MULTICAST_GROUP_SCAN, h1, h2]

/-- Witness for C6: an unsolicited new-scan-results broadcast (pid 0, seq 0)
sets the fresh-results flag and leaves the trigger flag alone. -/
theorem c6_notification_dispatch_witness :
    handle_NL80211_MULTICAST_GROUP_SCAN 0 0 34 ⟨0, 0⟩ = (MNL_CB_OK, ⟨1, 0⟩) :=
  (c6_notification_dispatch 0 0 34 ⟨0, 0⟩).2.1 rfl rfl rfl

/-- Iterated exchanges advance the sequence counter by their number, modulo
the 32-bit wrap. -/
theorem run_exchanges_sequence {xs : List (List Int × Int)} :
    ∀ {channel : netlink_channel}, channel.sequence % UINT32_MOD = channel.sequence →
      (run_exchanges channel xs).sequence = (channel.sequence + xs.length) % UINT32_MOD := by
  induction xs with
  | nil =>
    intro ch h
    simp only [run_exchanges, List.length_nil, Nat.add_zero]
    exact h.symm
  | cons x rest ih =>
    intro ch h
    cases x with
    | mk events first =>
      simp only [run_exchanges, receive_nl_message]
      rw [ih (Nat.mod_mod_of_dvd _ dvd_rfl)]
      rw [Nat.mod_add_mod]
      simp only [List.length_cons]
      congr 1
      omega

/-- C7: the sequence counter starts at 1 at channel initialisation, every
receive-and-dispatch call increments it exactly once (modulo the 32-bit wrap)
whatever the exchange's outcome, nothing else alters it, each prepared request
carries the channel's current sequence number, and no sequence value recurs
within the counter's 2^32-exchange period. -/
theorem c7_sequence_counter :
    (∀ channel : netlink_channel, ∀ ifindex : Nat, ∀ ok : Bool, ∀ channel' : netlink_channel,
      init_netlink_channel channel ifindex ok = some channel' → channel'.sequence = 1) ∧
    (∀ ty fl cmd : Nat, ∀ channel : netlink_channel,
      (prepare_nl_message ty fl cmd channel).nlmsg_seq = channel.sequence) ∧
    (∀ events : List Int, ∀ first : Int, ∀ channel : netlink_channel,
      ((receive_nl_message events first channel).2).sequence =
        (channel.sequence + 1) % UINT32_MOD ∧
      ((receive_nl_message events first channel).2).nl80211_id = channel.nl80211_id ∧
      ((receive_nl_message events first channel).2).ifindex = channel.ifindex) ∧
    (∀ channel : netlink_channel, ∀ xs : List (List Int × Int), channel.sequence = 1 →
      (run_exchanges channel xs).sequence = (1 + xs.length) % UINT32_MOD) ∧
    (∀ channel : netlink_channel, ∀ xs ys : List (List Int × Int), channel.sequence = 1 →
      xs.length < UINT32_MOD → ys.length < UINT32_MOD → xs.length ≠ ys.length →
      (run_exchanges channel xs).sequence ≠ (run_exchanges channel ys).sequence) := by
  refine ⟨?_, ?_, ?_, ?_, ?_⟩
  · intro channel ifindex ok channel' h
    simp only [init_netlink_channel] at h
    repeat' split at h
    all_goals first
    | exact Option.noConfusion h
    | (injection h with h'; subst h'; rfl)
  · intro ty fl cmd channel
    rfl
  · intro events first channel
    exact ⟨rfl, rfl, rfl⟩
  · intro channel xs h1
    have h := @run_exchanges_sequence xs channel (by rw [h1]; decide)
    rw [h1] at h
    exact h
  · intro channel xs ys h1 hx hy hne
    have ha := @run_exchanges_sequence xs channel (by rw [h1]; decide)
    have hb := @run_exchanges_sequence ys channel (by rw [h1]; decide)
    rw [h1] at ha hb
    rw [ha, hb]
    simp only [UINT32_MOD] at hx hy ⊢
    omega

/-- Witness for C7: three concrete exchanges advance the counter from 1 to 4,
and runs of different lengths leave distinct counters. -/
theorem c7_sequence_counter_witness :
    (run_exchanges ⟨1, 0, 3⟩ [([], 0), ([], 0), ([], 0)]).sequence = (1 + 3) % UINT32_MOD ∧
    (run_exchanges ⟨1, 0, 3⟩ [([], 0)]).sequence ≠
      (run_exchanges ⟨1, 0, 3⟩ [([], 0), ([], 0)]).sequence :=
  ⟨c7_sequence_counter.2.2.2.1 ⟨1, 0, 3⟩ [([], 0), ([], 0), ([], 0)] rfl,
   c7_sequence_counter.2.2.2.2 ⟨1, 0, 3⟩ [([], 0)] [([], 0), ([], 0)] rfl
     (by decide) (by decide) (by decide)⟩

/-- When `validate` aborts with `MNL_CB_ERROR` it records nothing: the output
table is returned unchanged. -/
theorem validate_error_tb {validation : List attribute_validation} {attribute_length : Nat}
    {a : nlattr} {tb : Nat → Option nlattr}
    (h : (validate validation attribute_length a tb).1 = MNL_CB_ERROR) :
    validate validation attribute_length a tb = (MNL_CB_ERROR, tb) := by
  simp only [validate] at h ⊢
  repeat' split
  all_goals simp_all [MNL_CB_OK, MNL_CB_ERROR]

/-- C4 counterexample: a get-family reply whose family-id attribute is valid,
whose multicast-group attribute violates its table entry and which carries a
further attribute after the violation.  The parse does abort with
`MNL_CB_ERROR` — the earlier attribute stays recorded, the later one is not —
but `handle_CTRL_CMD_GETFAMILY` ignores that status and returns `MNL_CB_OK`,
refuting "the message's handler returns an error status". -/
theorem c4_validation_counterexample :
    (mnl_attr_parse_payload NL80211_VALIDATION CTRL_ATTR_MAX c4_payload).1 = MNL_CB_ERROR ∧
    ((mnl_attr_parse_payload NL80211_VALIDATION CTRL_ATTR_MAX c4_payload).2
      CTRL_ATTR_FAMILY_ID).isSome = true ∧
    (mnl_attr_parse_payload NL80211_VALIDATION CTRL_ATTR_MAX c4_payload).2 3 = none ∧
    (handle_CTRL_CMD_GETFAMILY c4_payload ⟨0, ⟨0⟩⟩).1 = MNL_CB_OK ∧
    MNL_CB_OK ≠ MNL_CB_ERROR := by
  decide

/-- C4 amended: a type/length mismatch against the validation table aborts the
attribute iteration with `MNL_CB_ERROR` — attributes after the violation are
not recorded while those before it stay recorded; an attribute absent from the
table but within the declared maximum is recorded with no check; an attribute
beyond the maximum is skipped without record or error.  However, the abort is
not surfaced by the message handler itself: `handle_CTRL_CMD_GETFAMILY`
discards the parse status and returns an error only when a mandatory attribute
is missing from the recorded table (or the multicast-group list fails to
yield the scan group id). -/
theorem c4_validation_abort_amended :
    (∀ validation : List attribute_validation, ∀ attribute_length : Nat,
      ∀ pre : List nlattr, ∀ a : nlattr, ∀ post : List nlattr, ∀ tb : Nat → Option nlattr,
      (mnl_attr_parse_loop validation attribute_length pre tb).1 = MNL_CB_OK →
      (validate validation attribute_length a
        (mnl_attr_parse_loop validation attribute_length pre tb).2).1 = MNL_CB_ERROR →
      mnl_attr_parse_loop validation attribute_length (pre ++ a :: post) tb =
        (MNL_CB_ERROR, (mnl_attr_parse_loop validation attribute_length pre tb).2)) ∧
    (∀ validation : List attribute_validation, ∀ attribute_length : Nat,
      ∀ a : nlattr, ∀ tb : Nat → Option nlattr, a.typ ≤ attribute_length →
      (∀ v ∈ validation, v.attr ≠ a.typ) →
      validate validation attribute_length a tb =
        (MNL_CB_OK, fun t => if t = a.typ then some a else tb t)) ∧
    (∀ validation : List attribute_validation, ∀ attribute_length : Nat,
      ∀ a : nlattr, ∀ tb : Nat → Option nlattr, attribute_length < a.typ →
      validate validation attribute_length a tb = (MNL_CB_OK, tb)) ∧
    (∀ payload : List Nat, ∀ s : getfamily_state,
      ((handle_CTRL_CMD_GETFAMILY payload s).1 = MNL_CB_ERROR ↔
        ((mnl_attr_parse_payload NL80211_VALIDATION CTRL_ATTR_MAX payload).2
            CTRL_ATTR_FAMILY_ID = none ∨
          (∃ g : nlattr,
            (mnl_attr_parse_payload NL80211_VALIDATION CTRL_ATTR_MAX payload).2
              CTRL_ATTR_MCAST_GROUPS = some g ∧
            parse_CTRL_ATTR_MCAST_GROUPS g s.context = none)))) := by
  refine ⟨?_, ?_, ?_, ?_⟩
  · intro validation attribute_length pre
    induction pre with
    | nil =>
      intro a post tb hok herr
      simp only [mnl_attr_parse_loop] at hok herr ⊢
      rw [validate_error_tb herr]
      simp [MNL_CB_ERROR, MNL_CB_STOP]
    | cons p pre ih =>
      intro a post tb hok herr
      simp only [mnl_attr_parse_loop] at hok herr ⊢
      split at hok
      · next hle =>
        rw [hok] at hle
        exact absurd hle (by decide)
      · next hgt =>
        rw [if_neg hgt] at herr
        rw [if_neg hgt, if_neg hgt]
        exact ih a post _ hok herr
  · intro validation attribute_length a tb hle habs
    simp only [validate]
    rw [if_neg (by omega)]
    rw [if_neg]
    intro hany
    obtain ⟨v, hv, hcheck⟩ := List.any_eq_true.mp hany
    have hattr : v.attr = a.typ := by
      have hand := (Bool.and_eq_true _ _).mp hcheck
      simpa using hand.1
    exact habs v hv hattr
  · intro validation attribute_length a tb hgt
    simp only [validate]
    rw [if_pos hgt]
  · intro payload s
    simp only [handle_CTRL_CMD_GETFAMILY]
    cases hf : (mnl_attr_parse_payload NL80211_VALIDATION CTRL_ATTR_MAX payload).2
        CTRL_ATTR_FAMILY_ID with
    | none => simp [hf]
    | some fam =>
      cases hg : (mnl_attr_parse_payload NL80211_VALIDATION CTRL_ATTR_MAX payload).2
          CTRL_ATTR_MCAST_GROUPS with
      | none => simp [hf, hg, MNL_CB_OK, MNL_CB_ERROR]
      | some groups =>
        cases hp : parse_CTRL_ATTR_MCAST_GROUPS groups s.context with
        | none => simp [hf, hg, hp, MNL_CB_OK, MNL_CB_ERROR]
        | some context' => simp [hf, hg, hp, MNL_CB_OK, MNL_CB_ERROR]

/-- Witness for C4 amended: an attribute of unknown id 5 (within the maximum
7) is recorded unchecked, and an attribute of id 9 (beyond the maximum) is
skipped without record. -/
theorem c4_validation_abort_amended_witness :
    validate NL80211_VALIDATION CTRL_ATTR_MAX ⟨5, [1, 2, 3]⟩ (fun _ => none) =
      (MNL_CB_OK, fun t => if t = (5 : Nat) then some ⟨5, [1, 2, 3]⟩ else none) ∧
    validate NL80211_VALIDATION CTRL_ATTR_MAX ⟨9, []⟩ (fun _ => none) =
      (MNL_CB_OK, fun _ => none) :=
  ⟨c4_validation_abort_amended.2.1 NL80211_VALIDATION CTRL_ATTR_MAX ⟨5, [1, 2, 3]⟩
      (fun _ => none) (by decide) (by decide),
   c4_validation_abort_amended.2.2.1 NL80211_VALIDATION CTRL_ATTR_MAX ⟨9, []⟩
      (fun _ => none) (by decide)⟩

/-- C2 counterexample: with draining, triggering and waiting all succeeding,
a failed `NL80211_CMD_GET_SCAN` dump (status `MNL_CB_ERROR`, no entry
delivered) makes `wifi_scan_all` return 0 — the accumulated count — and not
the claimed -1: the source discards `get_scan`'s return value. -/
theorem c2_scan_all_counterexample :
    (wifi_scan_all c2_env (fun _ => bss_zero) 2).map Prod.fst = some 0 ∧
    c2_env.get_scan_ret = MNL_CB_ERROR ∧ (0 : Int) ≠ -1 := by
  decide

/-- C2 amended: a failure while draining past notifications, triggering the
scan, or waiting for fresh results makes `wifi_scan_all` return -1; but a
failure of the final `NL80211_CMD_GET_SCAN` dump step is not detected — its
status is discarded and `wifi_scan_all` returns the `scanned` count
accumulated so far, whatever `get_scan` reported. -/
theorem c2_scan_all_error_amended :
    ∀ env : scan_all_env, ∀ bss_infos : Nat → bss_info, ∀ n : Nat,
      (env.read_past_ok = false → wifi_scan_all env bss_infos n = some (-1, bss_infos)) ∧
      (env.read_past_ok = true →
        trigger_scan_if_necessary env.scanning env.trigger_ret = -1 →
        wifi_scan_all env bss_infos n = some (-1, bss_infos)) ∧
      (env.read_past_ok = true →
        trigger_scan_if_necessary env.scanning env.trigger_ret ≠ -1 →
        env.wait_ok = false → wifi_scan_all env bss_infos n = some (-1, bss_infos)) ∧
      (∀ sr : scan_state, env.read_past_ok = true →
        trigger_scan_if_necessary env.scanning env.trigger_ret ≠ -1 → env.wait_ok = true →
        parse_dump env.dump ⟨bss_infos, n, 0⟩ = some sr →
        wifi_scan_all env bss_infos n = some ((sr.scanned : Int), sr.bss_infos)) := by
  intro env bss_infos n
  refine ⟨?_, ?_, ?_, ?_⟩
  · intro h
    simp [wifi_scan_all, h]
  · intro hr ht
    simp [wifi_scan_all, hr, ht]
  · intro hr ht hw
    simp [wifi_scan_all, hr, ht, hw]
  · intro sr hr ht hw hd
    simp [wifi_scan_all, get_scan, hr, ht, hw, hd]

/-- Witness for C2 amended: the run of `c2_env` (dump failed, empty) returns
the accumulated count 0 with the untouched buffer. -/
theorem c2_scan_all_error_amended_witness :
    wifi_scan_all c2_env (fun _ => bss_zero) 2 = some (0, fun _ => bss_zero) :=
  (c2_scan_all_error_amended c2_env (fun _ => bss_zero) 2).2.2.2
    ⟨fun _ => bss_zero, 2, 0⟩ rfl (by decide) rfl rfl

/-- C5 counterexample: a 1-capacity dump holding exactly one BSS entry with no
attributes (hence status `BSS_NONE`, not associated) followed by a successful
station query makes `wifi_scan_station` return 1 — the source only checks
`scanned == 0`, never that the discovered BSS is associated — where the claim
requires 0 whenever no BSS has status Associated/IbssJoined. -/
theorem c5_station_counterexample :
    (wifi_scan_station c5_env station_zero).map Prod.fst = some 1 ∧
    (∀ e ∈ c5_env.dump, ¬ bss_status_assoc (bss_entry_status e)) ∧
    (1 : Int) ≠ 0 := by
  decide

/-- C5 amended: `wifi_scan_station` returns 0 exactly when the 1-capacity dump
request fails, the dump reports zero entries, or the station query fails;
whenever the dump is non-empty and both queries succeed it returns 1 with the
output populated from the station reply and from slot 0 of the dump buffer —
without checking that this BSS is associated, so a dump containing only
non-associated entries also yields 1 when the station query succeeds. -/
theorem c5_station_lookup_amended :
    ∀ env : station_env, ∀ station : station_info, ∀ sr : scan_state,
      parse_dump env.dump ⟨fun _ => env.initial_bss, 1, 0⟩ = some sr →
      (env.get_scan_ret = MNL_CB_ERROR → wifi_scan_station env station = some (0, station)) ∧
      (env.get_scan_ret ≠ MNL_CB_ERROR → sr.scanned = 0 →
        wifi_scan_station env station = some (0, station)) ∧
      (env.get_scan_ret ≠ MNL_CB_ERROR → sr.scanned ≠ 0 →
        env.get_station_ret = MNL_CB_ERROR →
        wifi_scan_station env station = some (0,
          match env.sta_info with
          | some nested => parse_NL80211_ATTR_STA_INFO nested station
          | none => station)) ∧
      (env.get_scan_ret ≠ MNL_CB_ERROR → sr.scanned ≠ 0 →
        env.get_station_ret ≠ MNL_CB_ERROR →
        wifi_scan_station env station = some (1,
          { (match env.sta_info with
             | some nested => parse_NL80211_ATTR_STA_INFO nested station
             | none => station) with
            bssid := (sr.bss_infos 0).bssid, ssid := (sr.bss_infos 0).ssid,
            status := (sr.bss_infos 0).status })) := by
  intro env station sr hd
  refine ⟨?_, ?_, ?_, ?_⟩
  · intro hs
    simp [wifi_scan_station, hd, hs]
  · intro hs h0
    simp [wifi_scan_station, hd, hs, h0]
  · intro hs h0 hst
    simp [wifi_scan_station, hd, hs, h0, hst]
  · intro hs h0 hst
    simp [wifi_scan_station, hd, hs, h0, hst]

/-- Witness for C5 amended: a failed dump request returns 0 with the output
untouched. -/
theorem c5_station_lookup_amended_witness :
    wifi_scan_station c5_env_err station_zero = some (0, station_zero) :=
  (c5_station_lookup_amended c5_env_err station_zero ⟨fun _ => bss_zero, 1, 0⟩ rfl).1 rfl

end WifiScan
